import Mathlib

/-!
Verification development for the dynamic greenhouse-gas budget repository.

The repository has two numerical subsystems:
* a stock-flow area simulator with a static intensity calculator, duplicated
  in two scripts (calculations_year_by_year.py and parallel coordinates.py);
* a dynamic budget curve solver (dynamic_ee_budget.py / dynamic_oe_budget.py)
  fitting dynamic(t) = a + b * Z(t) to an integral and an end/start ratio
  constraint.

Rationals stand in for Python floats, so all arithmetic identities below are
exact; tolerance statements (1e-3, 1e-9) are then implied by exact equality.
Where a claim concerns Python runtime failure (ZeroDivisionError), a second
embedding instruments every division that the scripts perform on data that
can be zero, returning Except values; Python raises only ZeroDivisionError
in these scripts, which the error type makes explicit.
-/

/-- Error taxonomy for the instrumented embeddings.  The scripts themselves
can only raise divByZero: the other two constructors exist so that claims
about InvalidParameter and UnsolvableConstraint conditions can be stated
and settled against the code. -/
inductive PyError where
  | divByZero : PyError
  | invalidParameter : PyError
  | unsolvableConstraint : PyError
deriving DecidableEq

/-- One entry of the per-year series: total area, newly active area, and the
two per-area intensities recorded by the horizon loop. -/
structure YearRow where
  Ae : ℚ
  Anew : ℚ
  E_op : ℚ
  E_emb : ℚ
deriving DecidableEq

namespace Static

/- Module constants of calculations_year_by_year.py. -/

def GB : ℚ := (550 - 185) / 0.887

def Fn : ℚ := 0.0106

def Fb : ℚ := 0.303

def Fe : ℚ := 0.3707

def Fo : ℚ := 1 - Fe

def rn : ℚ := 0.009

def rd : ℚ := 0.001

def rr : ℚ := 0.01

def year_GHG_neutrality : ℕ := 2045

def Ae_residential : ℚ := (4024768000 - 127039000) * 1.87 * 0.83

def Ae_nonresidential : ℚ := 3073000000

def Ae_initial : ℚ := Ae_residential + Ae_nonresidential

/-- Warm-up phase (pre-correction 2021 to 2025): iterate
Ae_temp := Ae_temp + rnp * Ae_temp - rdp * Ae_temp. -/
def warmupArea (rnp rdp : ℚ) : ℚ → ℕ → ℚ
  | A, 0 => A
  | A, k + 1 => warmupArea rnp rdp (A + rnp * A - rdp * A) k

/-- Horizon loop of calculate_emissions_year_by_year: each iteration computes
An, Ad, Ar from the current area, updates the area, then records the row with
the post-update area.  Division here is the total field division of ℚ; the
instrumented variant horizonRowsE below models the Python division. -/
def horizonRows (rnp rdp rrp share_op share_emb hl : ℚ) : ℚ → ℕ → List YearRow
  | _, 0 => []
  | Ae_current, n + 1 =>
    let An := rnp * Ae_current
    let Ad := rdp * Ae_current
    let Ar := rrp * Ae_current
    let A2 := Ae_current + An - Ad
    let A_new := An + Ar
    let E_op := share_op / hl / A2
    let E_emb := share_emb / hl / A_new / 50
    ⟨A2, A_new, E_op, E_emb⟩ :: horizonRows rnp rdp rrp share_op share_emb hl A2 n

/-- The function calculate_emissions_year_by_year, with the module constants
GB, Fn, year_GHG_neutrality, rn, rr, rd lifted to parameters (the claims
instantiate them); Fb, Fe, Fo and Ae_initial stay the module constants.  The
source returns five parallel lists; the rows bundle the last four, with
years y covered implicitly by list position (year 2025 + i at index i). -/
def calculate_emissions_year_by_year (GBp Fnp : ℚ) (yearNeutral : ℕ)
    (rnp rrp rdp : ℚ) : List YearRow :=
  let Ae_2025 := warmupArea rnp rdp Ae_initial 4
  let share_operational := GBp * Fnp * Fb * Fo * 1e12
  let share_embodied := GBp * Fnp * Fb * Fe * 1e12
  horizonRows rnp rdp rrp share_operational share_embodied
    ((yearNeutral : ℚ) + 1 - 2025) Ae_2025 (yearNeutral - 2024)

/-- Area Evolution Simulator contract: warm-up for pre years from the initial
area, then run the horizon loop for n years.  This is the composition the
source performs with pre = 4 and n = year_GHG_neutrality - 2024. -/
def simulate (A0 rnp rdp rrp share_op share_emb hl : ℚ) (pre n : ℕ) : List YearRow :=
  horizonRows rnp rdp rrp share_op share_emb hl (warmupArea rnp rdp A0 pre) n

/- Category budgets computed inside the function from module constants
(lines 67 and 70 of the source). -/

def share_operational : ℚ := GB * Fn * Fb * Fo * 1e12

def share_embodied : ℚ := GB * Fn * Fb * Fe * 1e12

/- Module-level epilogue: the default call and the printed averages. -/

def default_rows : List YearRow :=
  calculate_emissions_year_by_year GB Fn year_GHG_neutrality rn rr rd

def total_op_em : ℚ := (default_rows.map fun r => r.E_op).sum

def total_emb_em : ℚ := (default_rows.map fun r => r.E_emb).sum

def average_op_em : ℚ := total_op_em / ((year_GHG_neutrality : ℚ) + 1 - 2025)

def average_emb_em : ℚ := total_emb_em / ((year_GHG_neutrality : ℚ) + 1 - 2025)

end Static

/-- Spec side of claim C6, following the Budget Allocator contract of the
spec word for word: subtract the pre-horizon deduction, divide by the CO2 to
GHG factor, multiply by the three shares, convert gigatonnes to kilograms. -/
def allocate (global_budget_Gt pre_horizon_deduction_Gt co2_to_ghg_factor
    national_share sector_share category_share : ℚ) : ℚ :=
  ((global_budget_Gt - pre_horizon_deduction_Gt) / co2_to_ghg_factor) *
    national_share * sector_share * category_share * 1e12

namespace PC

/- Embedding of calculate_emissions in parallel coordinates.py.  The module
repeats the constants Fb, Fe, Fo, Ae_residential, Ae_nonresidential and
Ae_initial of calculations_year_by_year.py with identical literal values,
and duplicates the warm-up and horizon loop inside the function body. -/

def Fb : ℚ := 0.303

def Fe : ℚ := 0.3707

def Fo : ℚ := 1 - Fe

def Ae_residential : ℚ := (4024768000 - 127039000) * 1.87 * 0.83

def Ae_nonresidential : ℚ := 3073000000

def Ae_initial : ℚ := Ae_residential + Ae_nonresidential

/-- Warm-up loop as duplicated inside calculate_emissions. -/
def warmupArea (rnp rdp : ℚ) : ℚ → ℕ → ℚ
  | A, 0 => A
  | A, k + 1 => warmupArea rnp rdp (A + rnp * A - rdp * A) k

/-- Horizon loop as duplicated inside calculate_emissions. -/
def horizonRows (rnp rdp rrp share_op share_emb hl : ℚ) : ℚ → ℕ → List YearRow
  | _, 0 => []
  | Ae_current, n + 1 =>
    let An := rnp * Ae_current
    let Ad := rdp * Ae_current
    let Ar := rrp * Ae_current
    let A2 := Ae_current + An - Ad
    let A_new := An + Ar
    let E_op := share_op / hl / A2
    let E_emb := share_emb / hl / A_new / 50
    ⟨A2, A_new, E_op, E_emb⟩ :: horizonRows rnp rdp rrp share_op share_emb hl A2 n

/-- The function calculate_emissions(GB, Fn, year_GHG_neutrality, rn, rr, rd):
converts the raw gigatonne budget (subtract 185, divide by 0.887), runs the
duplicated warm-up and horizon loops, and returns the pair of horizon
averages. -/
def calculate_emissions (GBr Fnp : ℚ) (yearNeutral : ℕ) (rnp rrp rdp : ℚ) : ℚ × ℚ :=
  let GB1 := GBr - 185
  let GB_GHG := GB1 / 0.887
  let Ae_2025 := warmupArea rnp rdp Ae_initial 4
  let share_operational := GB_GHG * Fnp * Fb * Fo * 1e12
  let share_embodied := GB_GHG * Fnp * Fb * Fe * 1e12
  let rows := horizonRows rnp rdp rrp share_operational share_embodied
    ((yearNeutral : ℚ) + 1 - 2025) Ae_2025 (yearNeutral - 2024)
  let total_op_em := (rows.map fun r => r.E_op).sum
  let total_emb_em := (rows.map fun r => r.E_emb).sum
  (total_op_em / ((yearNeutral : ℚ) + 1 - 2025),
   total_emb_em / ((yearNeutral : ℚ) + 1 - 2025))

end PC

/-- Caller-side averages that calculations_year_by_year.py computes from the
returned series (sum the intensity lists, divide by the horizon length). -/
def averagesFromSeries (yearNeutral : ℕ) (rows : List YearRow) : ℚ × ℚ :=
  ((rows.map fun r => r.E_op).sum / ((yearNeutral : ℚ) + 1 - 2025),
   (rows.map fun r => r.E_emb).sum / ((yearNeutral : ℚ) + 1 - 2025))

/- Instrumented embeddings.  Python raises ZeroDivisionError when a division
by zero is executed and aborts the whole call, returning nothing; the Except
embeddings below perform exactly the divisions of the scripts on data that
can vanish, in source order, and short-circuit as Python does.  Divisions by
nonzero literal constants (0.887, 50) cannot raise and stay total. -/

/-- Horizon loop with Python division semantics.  Both scripts run this exact
loop body; an error aborts the run, so no row list is returned for a failed
year (no result is produced for the scenario). -/
def horizonRowsE (rnp rdp rrp share_op share_emb hl : ℚ) : ℚ → ℕ → Except PyError (List YearRow)
  | _, 0 => .ok []
  | Ae_current, n + 1 =>
    let An := rnp * Ae_current
    let Ad := rdp * Ae_current
    let Ar := rrp * Ae_current
    let A2 := Ae_current + An - Ad
    let A_new := An + Ar
    if hl = 0 then .error .divByZero
    else if A2 = 0 then .error .divByZero
    else if A_new = 0 then .error .divByZero
    else
      let E_op := share_op / hl / A2
      let E_emb := share_emb / hl / A_new / 50
      match horizonRowsE rnp rdp rrp share_op share_emb hl A2 n with
      | .error e => .error e
      | .ok rest => .ok (⟨A2, A_new, E_op, E_emb⟩ :: rest)

/-- Instrumented calculate_emissions_year_by_year (same lifting of module
constants to parameters as the total version). -/
def calculate_emissions_year_by_yearE (GBp Fnp : ℚ) (yearNeutral : ℕ)
    (rnp rrp rdp : ℚ) : Except PyError (List YearRow) :=
  let Ae_2025 := Static.warmupArea rnp rdp Static.Ae_initial 4
  let share_operational := GBp * Fnp * Static.Fb * Static.Fo * 1e12
  let share_embodied := GBp * Fnp * Static.Fb * Static.Fe * 1e12
  horizonRowsE rnp rdp rrp share_operational share_embodied
    ((yearNeutral : ℚ) + 1 - 2025) Ae_2025 (yearNeutral - 2024)

/-- Epilogue of the instrumented calculate_emissions: a failed loop aborts
the whole call, otherwise the totals are summed and divided by the horizon
length (a division Python checks at run time). -/
def averagesE (hl : ℚ) (r : Except PyError (List YearRow)) : Except PyError (ℚ × ℚ) :=
  match r with
  | .error e => .error e
  | .ok rows =>
    let total_op_em := (rows.map fun r => r.E_op).sum
    let total_emb_em := (rows.map fun r => r.E_emb).sum
    if hl = 0 then .error .divByZero
    else .ok (total_op_em / hl, total_emb_em / hl)

/-- Instrumented calculate_emissions of parallel coordinates.py, including
the final division of the totals by the horizon length. -/
def calculate_emissionsE (GBr Fnp : ℚ) (yearNeutral : ℕ)
    (rnp rrp rdp : ℚ) : Except PyError (ℚ × ℚ) :=
  let GB1 := GBr - 185
  let GB_GHG := GB1 / 0.887
  let Ae_2025 := PC.warmupArea rnp rdp PC.Ae_initial 4
  let share_operational := GB_GHG * Fnp * PC.Fb * PC.Fo * 1e12
  let share_embodied := GB_GHG * Fnp * PC.Fb * PC.Fe * 1e12
  averagesE ((yearNeutral : ℚ) + 1 - 2025)
    (horizonRowsE rnp rdp rrp share_operational share_embodied
      ((yearNeutral : ℚ) + 1 - 2025) Ae_2025 (yearNeutral - 2024))

/-- Result inspector: the run produced a value. -/
def isOkRun {α : Type} (r : Except PyError α) : Bool :=
  match r with
  | .ok _ => true
  | .error _ => false

/-- Result inspector: the run aborted with a division by zero. -/
def errIsDiv {α : Type} (r : Except PyError α) : Bool :=
  match r with
  | .error .divByZero => true
  | _ => false

/-- Result inspector: the run aborted with an InvalidParameter condition. -/
def errIsInvalid {α : Type} (r : Except PyError α) : Bool :=
  match r with
  | .error .invalidParameter => true
  | _ => false

/-- Result inspector: the run aborted with an UnsolvableConstraint
condition. -/
def errIsUnsolvable {α : Type} (r : Except PyError α) : Bool :=
  match r with
  | .error .unsolvableConstraint => true
  | _ => false

/-- Result inspector: total area recorded for the first horizon year, or 0
when the run failed or the horizon is empty. -/
def firstAe (r : Except PyError (List YearRow)) : ℚ :=
  match r with
  | .ok (row :: _) => row.Ae
  | _ => 0

namespace Dyn

/- Embedding of the dynamic budget scripts over ℚ with Python division
semantics.  Both dynamic_ee_budget.py and dynamic_oe_budget.py run the same
solve_for_a_b and verification section; their module globals Z_2025, Z_2045,
I_Z, factor_2025_2045, I_constant and T_max - T_min are the parameters
Z0, Z1, IZ, ratio, Iconst, Tlen here.  The quadrature value I_Z is a
parameter because scipy's quad is external; the exact integral is the
intended value of that parameter. -/

/-- The function solve_for_a_b.  The divisions by (1 - ratio) (first executed
when denom is formed) and by denom are the ones Python performs; the second
division by (1 - ratio) inside a_in_terms_of_b is reached only after the
first succeeded, so a single check is faithful. -/
def solve_for_a_bE (Z0 Z1 IZ ratio Iconst Tlen : ℚ) : Except PyError (ℚ × ℚ) :=
  let numerator := -(Z1 - ratio * Z0)
  if (1 - ratio) = 0 then .error .divByZero
  else
    let q := numerator / (1 - ratio)
    let denom := q * Tlen + IZ
    if denom = 0 then .error .divByZero
    else
      let b_sol := Iconst / denom
      let a_sol := b_sol * numerator / (1 - ratio)
      .ok (a_sol, b_sol)

/-- Verification section run after the solve: compute ratio_2045_2025 =
dynamic(T_max) / dynamic(T_min) (a division Python checks at run time) and
I_dynamic (quad of the affine curve, which equals a * Tlen + b * IZ when IZ
is the integral of Z), print them, and pass the curve through.  No
comparison against a tolerance is performed by the script. -/
def verificationE (Z0 Z1 IZ Tlen : ℚ) (r : Except PyError (ℚ × ℚ)) :
    Except PyError (ℚ × ℚ × ℚ × ℚ) :=
  match r with
  | .error e => .error e
  | .ok (a, b) =>
    if (a + b * Z0) = 0 then .error .divByZero
    else
      let ratio_2045_2025 := (a + b * Z1) / (a + b * Z0)
      let I_dynamic := a * Tlen + b * IZ
      .ok (a, b, ratio_2045_2025, I_dynamic)

/-- Whole-module run of a dynamic budget script: solve for (a, b), then run
the verification section; the returned tuple is
(a, b, ratio_2045_2025, I_dynamic). -/
def dynamicModuleE (Z0 Z1 IZ ratio Iconst Tlen : ℚ) : Except PyError (ℚ × ℚ × ℚ × ℚ) :=
  verificationE Z0 Z1 IZ Tlen (solve_for_a_bE Z0 Z1 IZ ratio Iconst Tlen)

end Dyn

namespace EE

/- Module constants of dynamic_ee_budget.py. -/

def T_min : ℚ := 2025

def T_max : ℚ := 2045

def x_e_base : ℚ := 2.41

def I_constant : ℚ := x_e_base * (T_max - T_min)

/-- Cubic fit for the embodied emission trend. -/
def f (x : ℚ) : ℚ :=
  -85.68522642828206 * x ^ 3 + 182.2869409438485 * x ^ 2 +
    -138.8758533234043 * x + 47.363212824263705

/-- Normalized time in [0, 1]. -/
def scale_year (year : ℚ) : ℚ := (year - T_min) / (T_max - T_min)

/-- Shape function of the embodied module (single component, weight 0). -/
def Z (year : ℚ) : ℚ := f (scale_year year)

def Z_2025 : ℚ := Z T_min

def Z_2045 : ℚ := Z T_max

def factor_2025_2045 : ℚ := 5.9 / 47.7

/-- Exact value of the quadrature integral of Z over the horizon: with the
substitution x = (t - 2025) / 20 the integral is 20 times the integral of
the cubic f over [0, 1]. -/
def I_Z : ℚ :=
  20 * (-85.68522642828206 / 4 + 182.2869409438485 / 3 +
    -138.8758533234043 / 2 + 47.363212824263705)

end EE

namespace OE

/- Module constants of dynamic_oe_budget.py used by the claims. -/

def T_min : ℚ := 2025

def T_max : ℚ := 2045

def x_op_base : ℚ := 3.86

def I_constant : ℚ := x_op_base * (T_max - T_min)

def w : ℚ := 0.137

def factor_2025_2045 : ℚ := w * (4.3 / 42.2) + (1 - w) * (11.6 / 71.9)

end OE

namespace DynR

/- Field-polymorphic embedding of the dynamic solver for the analytic claim
C1: instantiated at ℝ, the curve is dynamic(t) = a + b * Z(t) and the
integral is the genuine interval integral of Mathlib, so the quadrature of
the scripts is modelled by the exact integral of the shape function. -/

/-- The function solve_for_a_b: Z0, Z1, IZ, ratio, Iconst and the horizon
bounds are the module globals Z_2025, Z_2045, I_Z, factor_2025_2045,
I_constant, T_min, T_max. -/
def solve_for_a_b {K : Type} [Field K] (Z0 Z1 IZ ratio Iconst Tmin Tmax : K) : K × K :=
  let numerator := -(Z1 - ratio * Z0)
  let denom := numerator / (1 - ratio) * (Tmax - Tmin) + IZ
  let b_sol := Iconst / denom
  let a_sol := b_sol * numerator / (1 - ratio)
  (a_sol, b_sol)

/-- The dynamic GHG budget curve dynamic(t) = a + b * Z(t). -/
def dynamic {K : Type} [Field K] (a b : K) (Z : K → K) (t : K) : K := a + b * Z t

end DynR

/- Helper lemmas about the year loop. -/

theorem Static.horizonRows_length (rnp rdp rrp share_op share_emb hl : ℚ) :
    ∀ (n : ℕ) (A : ℚ), (Static.horizonRows rnp rdp rrp share_op share_emb hl A n).length = n := by
  intro n
  induction n with
  | zero => intro A; simp [Static.horizonRows]
  | succ n ih => intro A; simp [Static.horizonRows, ih]

theorem Static.horizonRows_get_Ae (rnp rdp rrp share_op share_emb hl : ℚ) :
    ∀ (n : ℕ) (A : ℚ) (i : ℕ)
      (h : i < (Static.horizonRows rnp rdp rrp share_op share_emb hl A n).length),
      ((Static.horizonRows rnp rdp rrp share_op share_emb hl A n).get ⟨i, h⟩).Ae =
        A * (1 + rnp - rdp) ^ (i + 1) := by
  intro n
  induction n with
  | zero => intro A i h; simp [Static.horizonRows] at h
  | succ n ih =>
    intro A i h
    cases i with
    | zero =>
      show (YearRow.mk _ _ _ _).Ae = _
      ring
    | succ i =>
      have step := ih (A + rnp * A - rdp * A) i (by
        have hlen := Static.horizonRows_length rnp rdp rrp share_op share_emb hl
        rw [hlen] at h ⊢
        omega)
      calc ((Static.horizonRows rnp rdp rrp share_op share_emb hl A (n + 1)).get
              ⟨i + 1, h⟩).Ae
          = ((Static.horizonRows rnp rdp rrp share_op share_emb hl
              (A + rnp * A - rdp * A) n).get ⟨i, by
                have hlen := Static.horizonRows_length rnp rdp rrp share_op share_emb hl
                rw [hlen] at h ⊢
                omega⟩).Ae := rfl
        _ = (A + rnp * A - rdp * A) * (1 + rnp - rdp) ^ (i + 1) := step
        _ = A * (1 + rnp - rdp) ^ (i + 1 + 1) := by ring

/-- Claim C2: for every non-negative initial area and non-negative rates rn,
rd, the recorded total-area sequence of the Area Evolution Simulator obeys
area(y) = area(y-1) + rn * area(y-1) - rd * area(y-1) for every later horizon
year (within 1e-9 relative tolerance; the embedding satisfies it exactly),
and the first recorded entry is the post-update value computed from the
warm-up-compounded area, not the pre-update value. -/
theorem C2_theorem (A0 rnp rdp rrp share_op share_emb hl : ℚ) (n : ℕ)
    (hA : 0 ≤ A0) (hrn : 0 ≤ rnp) (hrd : 0 ≤ rdp) :
    (∀ (i : ℕ)
      (h1 : i + 1 < (Static.simulate A0 rnp rdp rrp share_op share_emb hl 4 n).length)
      (h2 : i < (Static.simulate A0 rnp rdp rrp share_op share_emb hl 4 n).length),
      |((Static.simulate A0 rnp rdp rrp share_op share_emb hl 4 n).get ⟨i + 1, h1⟩).Ae -
          (((Static.simulate A0 rnp rdp rrp share_op share_emb hl 4 n).get ⟨i, h2⟩).Ae +
            rnp * ((Static.simulate A0 rnp rdp rrp share_op share_emb hl 4 n).get ⟨i, h2⟩).Ae -
            rdp * ((Static.simulate A0 rnp rdp rrp share_op share_emb hl 4 n).get ⟨i, h2⟩).Ae)| ≤
        1e-9 * |((Static.simulate A0 rnp rdp rrp share_op share_emb hl 4 n).get ⟨i, h2⟩).Ae +
            rnp * ((Static.simulate A0 rnp rdp rrp share_op share_emb hl 4 n).get ⟨i, h2⟩).Ae -
            rdp * ((Static.simulate A0 rnp rdp rrp share_op share_emb hl 4 n).get ⟨i, h2⟩).Ae|) ∧
    (∀ h0 : 0 < (Static.simulate A0 rnp rdp rrp share_op share_emb hl 4 n).length,
      ((Static.simulate A0 rnp rdp rrp share_op share_emb hl 4 n).get ⟨0, h0⟩).Ae =
        Static.warmupArea rnp rdp A0 4 + rnp * Static.warmupArea rnp rdp A0 4 -
          rdp * Static.warmupArea rnp rdp A0 4) := by
  constructor
  · intro i h1 h2
    have e1 := Static.horizonRows_get_Ae rnp rdp rrp share_op share_emb hl n
      (Static.warmupArea rnp rdp A0 4) (i + 1) h1
    have e2 := Static.horizonRows_get_Ae rnp rdp rrp share_op share_emb hl n
      (Static.warmupArea rnp rdp A0 4) i h2
    simp only [Static.simulate] at h1 h2 ⊢
    rw [e1, e2]
    have hzero : Static.warmupArea rnp rdp A0 4 * (1 + rnp - rdp) ^ (i + 1 + 1) -
        (Static.warmupArea rnp rdp A0 4 * (1 + rnp - rdp) ^ (i + 1) +
          rnp * (Static.warmupArea rnp rdp A0 4 * (1 + rnp - rdp) ^ (i + 1)) -
          rdp * (Static.warmupArea rnp rdp A0 4 * (1 + rnp - rdp) ^ (i + 1))) = 0 := by
      ring
    rw [hzero, abs_zero]
    positivity
  · intro h0
    simp only [Static.simulate] at h0 ⊢
    have e0 := Static.horizonRows_get_Ae rnp rdp rrp share_op share_emb hl n
      (Static.warmupArea rnp rdp A0 4) 0 h0
    rw [e0]
    ring

/-- Concrete instance of C2_theorem: initial area 1, rates rn = rd = 0,
horizon of two years. -/
theorem C2_witness :
    ((0:ℚ) ≤ 1 ∧ (0:ℚ) ≤ 0) ∧
    ((∀ (i : ℕ)
      (h1 : i + 1 < (Static.simulate 1 0 0 0 1 1 1 4 2).length)
      (h2 : i < (Static.simulate 1 0 0 0 1 1 1 4 2).length),
      |((Static.simulate 1 0 0 0 1 1 1 4 2).get ⟨i + 1, h1⟩).Ae -
          (((Static.simulate 1 0 0 0 1 1 1 4 2).get ⟨i, h2⟩).Ae +
            0 * ((Static.simulate 1 0 0 0 1 1 1 4 2).get ⟨i, h2⟩).Ae -
            0 * ((Static.simulate 1 0 0 0 1 1 1 4 2).get ⟨i, h2⟩).Ae)| ≤
        1e-9 * |((Static.simulate 1 0 0 0 1 1 1 4 2).get ⟨i, h2⟩).Ae +
            0 * ((Static.simulate 1 0 0 0 1 1 1 4 2).get ⟨i, h2⟩).Ae -
            0 * ((Static.simulate 1 0 0 0 1 1 1 4 2).get ⟨i, h2⟩).Ae|) ∧
    (∀ h0 : 0 < (Static.simulate 1 0 0 0 1 1 1 4 2).length,
      ((Static.simulate 1 0 0 0 1 1 1 4 2).get ⟨0, h0⟩).Ae =
        Static.warmupArea 0 0 1 4 + 0 * Static.warmupArea 0 0 1 4 -
          0 * Static.warmupArea 0 0 1 4)) :=
  ⟨⟨by norm_num, le_rfl⟩, C2_theorem 1 0 0 0 1 1 1 2 (by norm_num) le_rfl le_rfl⟩

theorem Static.warmupArea_nonneg (rnp : ℚ) (hrn : 0 ≤ rnp) :
    ∀ (k : ℕ) (A : ℚ), 0 ≤ A → 0 ≤ Static.warmupArea rnp 0 A k := by
  intro k
  induction k with
  | zero => intro A hA; simpa [Static.warmupArea] using hA
  | succ k ih =>
    intro A hA
    show 0 ≤ Static.warmupArea rnp 0 (A + rnp * A - 0 * A) k
    apply ih
    nlinarith

/-- Claim C9: with a non-negative initial area and non-negative
new-construction rate, a zero demolition rate makes the recorded total-area
sequence of the Area Evolution Simulator non-decreasing across the whole
horizon. -/
theorem C9_theorem (A0 rnp rrp share_op share_emb hl : ℚ) (n : ℕ)
    (hA : 0 ≤ A0) (hrn : 0 ≤ rnp) :
    ∀ (i : ℕ)
      (h1 : i + 1 < (Static.simulate A0 rnp 0 rrp share_op share_emb hl 4 n).length)
      (h2 : i < (Static.simulate A0 rnp 0 rrp share_op share_emb hl 4 n).length),
      ((Static.simulate A0 rnp 0 rrp share_op share_emb hl 4 n).get ⟨i, h2⟩).Ae ≤
        ((Static.simulate A0 rnp 0 rrp share_op share_emb hl 4 n).get ⟨i + 1, h1⟩).Ae := by
  intro i h1 h2
  simp only [Static.simulate] at h1 h2 ⊢
  rw [Static.horizonRows_get_Ae rnp 0 rrp share_op share_emb hl n
      (Static.warmupArea rnp 0 A0 4) i h2,
    Static.horizonRows_get_Ae rnp 0 rrp share_op share_emb hl n
      (Static.warmupArea rnp 0 A0 4) (i + 1) h1]
  have hW : 0 ≤ Static.warmupArea rnp 0 A0 4 := Static.warmupArea_nonneg rnp hrn 4 A0 hA
  have hbase : (1:ℚ) ≤ 1 + rnp - 0 := by linarith
  have hpow : (1 + rnp - 0 : ℚ) ^ (i + 1) ≤ (1 + rnp - 0) ^ (i + 1 + 1) :=
    pow_le_pow_right₀ hbase (by omega)
  exact mul_le_mul_of_nonneg_left hpow hW

/-- Concrete instance of C9_theorem: initial area 1, rate rn = 1, two horizon
years. -/
theorem C9_witness :
    ((0:ℚ) ≤ 1 ∧ (0:ℚ) ≤ 1) ∧
    (∀ (i : ℕ)
      (h1 : i + 1 < (Static.simulate 1 1 0 0 1 1 1 4 2).length)
      (h2 : i < (Static.simulate 1 1 0 0 1 1 1 4 2).length),
      ((Static.simulate 1 1 0 0 1 1 1 4 2).get ⟨i, h2⟩).Ae ≤
        ((Static.simulate 1 1 0 0 1 1 1 4 2).get ⟨i + 1, h1⟩).Ae) :=
  ⟨⟨by norm_num, by norm_num⟩, C9_theorem 1 1 0 1 1 1 2 (by norm_num) (by norm_num)⟩

/-- Claim C5: every recorded operational intensity equals the category budget
divided by the horizon length and by that year's total area, and every
recorded embodied intensity equals the category budget divided by the horizon
length, by that year's newly-active area, and by the fixed amortization
lifetime of 50 years. -/
theorem C5_theorem (rnp rdp rrp share_op share_emb hl A : ℚ) (n i : ℕ)
    (h : i < (Static.horizonRows rnp rdp rrp share_op share_emb hl A n).length) :
    ((Static.horizonRows rnp rdp rrp share_op share_emb hl A n).get ⟨i, h⟩).E_op =
      share_op / hl /
        ((Static.horizonRows rnp rdp rrp share_op share_emb hl A n).get ⟨i, h⟩).Ae ∧
    ((Static.horizonRows rnp rdp rrp share_op share_emb hl A n).get ⟨i, h⟩).E_emb =
      share_emb / hl /
        ((Static.horizonRows rnp rdp rrp share_op share_emb hl A n).get ⟨i, h⟩).Anew / 50 := by
  induction n generalizing A i with
  | zero => simp [Static.horizonRows] at h
  | succ n ih =>
    cases i with
    | zero => exact ⟨rfl, rfl⟩
    | succ i =>
      have htail : i < (Static.horizonRows rnp rdp rrp share_op share_emb hl
          (A + rnp * A - rdp * A) n).length := by
        have hlen := Static.horizonRows_length rnp rdp rrp share_op share_emb hl
        rw [hlen] at h ⊢
        omega
      exact ih (A + rnp * A - rdp * A) i htail

/-- Concrete instance of C5_theorem: one horizon year, area 1, budgets 2 and
3, horizon length 1. -/
theorem C5_witness :
    (0 < (Static.horizonRows 0 0 1 2 3 1 1 1).length) ∧
    (((Static.horizonRows 0 0 1 2 3 1 1 1).get ⟨0, by norm_num [Static.horizonRows]⟩).E_op =
      2 / 1 / ((Static.horizonRows 0 0 1 2 3 1 1 1).get ⟨0, by norm_num [Static.horizonRows]⟩).Ae ∧
    ((Static.horizonRows 0 0 1 2 3 1 1 1).get ⟨0, by norm_num [Static.horizonRows]⟩).E_emb =
      3 / 1 / ((Static.horizonRows 0 0 1 2 3 1 1 1).get ⟨0, by norm_num [Static.horizonRows]⟩).Anew / 50) :=
  ⟨by norm_num [Static.horizonRows],
   C5_theorem 0 0 1 2 3 1 1 1 0 (by norm_num [Static.horizonRows])⟩

/-- Claim C6: the category budgets computed by the code equal the Budget
Allocator formula ((global - deduction) / co2_to_ghg_factor) * national *
sector * category * 1e12, with category share Fo for operational and Fe for
embodied. -/
theorem C6_theorem :
    Static.share_operational = allocate 550 185 0.887 Static.Fn Static.Fb Static.Fo ∧
    Static.share_embodied = allocate 550 185 0.887 Static.Fn Static.Fb Static.Fe :=
  ⟨rfl, rfl⟩

set_option maxRecDepth 8000

/-- Counterexample to claim C3 as stated: at the default configuration the
horizon averages recomputed from the per-year series are close to, but not
equal to, the scalars x_e_base = 2.41 and x_op_base = 3.86 that the dynamic
modules use (the script prints the averages rounded to two decimals, and the
rounded values were copied into the dynamic modules). -/
theorem C3_counterexample :
    Static.average_emb_em ≠ EE.x_e_base ∧ Static.average_op_em ≠ OE.x_op_base := by
  constructor <;>
    norm_num [Static.average_emb_em, Static.average_op_em, Static.total_emb_em,
      Static.total_op_em, Static.default_rows, Static.calculate_emissions_year_by_year,
      Static.horizonRows, Static.warmupArea, Static.GB, Static.Fn, Static.Fb, Static.Fe,
      Static.Fo, Static.rn, Static.rd, Static.rr, Static.year_GHG_neutrality,
      Static.Ae_initial, Static.Ae_residential, Static.Ae_nonresidential,
      EE.x_e_base, OE.x_op_base]

/-- Claim C3 (amended): at the default configuration the horizon averages
recomputed from the per-year series agree with the scalars used by the
dynamic modules to the two decimal places at which the script prints them
(within 0.005), rather than exactly, and each dynamic module forms its
conservation target as I_constant = x_base * (T_max - T_min). -/
theorem C3_theorem :
    |Static.average_emb_em - EE.x_e_base| < 1/200 ∧
    |Static.average_op_em - OE.x_op_base| < 1/200 ∧
    EE.I_constant = EE.x_e_base * (EE.T_max - EE.T_min) ∧
    OE.I_constant = OE.x_op_base * (OE.T_max - OE.T_min) := by
  refine ⟨?_, ?_, rfl, rfl⟩ <;>
    · rw [abs_lt]
      constructor <;>
        norm_num [Static.average_emb_em, Static.average_op_em, Static.total_emb_em,
          Static.total_op_em, Static.default_rows, Static.calculate_emissions_year_by_year,
          Static.horizonRows, Static.warmupArea, Static.GB, Static.Fn, Static.Fb, Static.Fe,
          Static.Fo, Static.rn, Static.rd, Static.rr, Static.year_GHG_neutrality,
          Static.Ae_initial, Static.Ae_residential, Static.Ae_nonresidential,
          EE.x_e_base, OE.x_op_base]

theorem PC.warmupArea_eq (rnp rdp : ℚ) :
    ∀ (k : ℕ) (A : ℚ), PC.warmupArea rnp rdp A k = Static.warmupArea rnp rdp A k := by
  intro k
  induction k with
  | zero => intro A; rfl
  | succ k ih =>
    intro A
    show PC.warmupArea rnp rdp (A + rnp * A - rdp * A) k = _
    rw [ih]
    rfl

theorem PC.horizonRows_eq (rnp rdp rrp share_op share_emb hl : ℚ) :
    ∀ (n : ℕ) (A : ℚ),
      PC.horizonRows rnp rdp rrp share_op share_emb hl A n =
        Static.horizonRows rnp rdp rrp share_op share_emb hl A n := by
  intro n
  induction n with
  | zero => intro A; rfl
  | succ n ih =>
    intro A
    show _ :: PC.horizonRows rnp rdp rrp share_op share_emb hl (A + rnp * A - rdp * A) n = _
    rw [ih]
    rfl

/-- Counterexample to claim C10 as stated: instantiating the GB constant of
calculations_year_by_year.py with the same raw gigatonne value that is passed
to calculate_emissions gives different averages, because calculate_emissions
first subtracts 185 and divides by 0.887 while the other module stores the
already-converted value in its GB constant.  Shown at GB = 550, Fn = 0.0106,
neutrality year 2026, rates rn = 0, rr = 0.01, rd = 0. -/
theorem C10_counterexample :
    (2025 ≤ 2026 ∧ (0:ℚ) ≤ 0 ∧ (0:ℚ) ≤ 0.01) ∧
    PC.calculate_emissions 550 0.0106 2026 0 0.01 0 ≠
      averagesFromSeries 2026
        (Static.calculate_emissions_year_by_year 550 0.0106 2026 0 0.01 0) := by
  refine ⟨⟨by norm_num, le_rfl, by norm_num⟩, ?_⟩
  norm_num [Prod.ext_iff, PC.calculate_emissions, PC.horizonRows, PC.warmupArea,
    PC.Fb, PC.Fe, PC.Fo, PC.Ae_initial, PC.Ae_residential, PC.Ae_nonresidential,
    averagesFromSeries, Static.calculate_emissions_year_by_year, Static.horizonRows,
    Static.warmupArea, Static.Fb, Static.Fe, Static.Fo, Static.Ae_initial,
    Static.Ae_residential, Static.Ae_nonresidential]

/-- Claim C10 (amended): calculate_emissions in parallel coordinates.py
returns exactly the averages computed from the series of
calculate_emissions_year_by_year when the latter's GB constant is
instantiated with the converted budget (GB_raw - 185) / 0.887 — the
conversion that calculations_year_by_year.py performs when defining its GB
constant — and the remaining constants Fn, rn, rr, rd and
year_GHG_neutrality with the same values; the two files duplicate the same
warm-up and horizon loop. -/
theorem C10_theorem (GBr Fnp : ℚ) (yearNeutral : ℕ) (rnp rrp rdp : ℚ)
    (hyear : 2025 ≤ yearNeutral) (hrn : 0 ≤ rnp) (hrr : 0 ≤ rrp) (hrd : 0 ≤ rdp) :
    PC.calculate_emissions GBr Fnp yearNeutral rnp rrp rdp =
      averagesFromSeries yearNeutral
        (Static.calculate_emissions_year_by_year ((GBr - 185) / 0.887) Fnp yearNeutral
          rnp rrp rdp) := by
  simp only [PC.calculate_emissions, averagesFromSeries,
    Static.calculate_emissions_year_by_year, PC.warmupArea_eq, PC.horizonRows_eq]
  rfl

/-- Concrete instance of C10_theorem at GB = 550, Fn = 0.0106, neutrality
year 2026, rates rn = 0, rr = 0.01, rd = 0. -/
theorem C10_witness :
    (2025 ≤ 2026 ∧ (0:ℚ) ≤ 0 ∧ (0:ℚ) ≤ 0.01 ∧ (0:ℚ) ≤ 0) ∧
    PC.calculate_emissions 550 0.0106 2026 0 0.01 0 =
      averagesFromSeries 2026
        (Static.calculate_emissions_year_by_year ((550 - 185) / 0.887) 0.0106 2026
          0 0.01 0) :=
  ⟨⟨by norm_num, le_rfl, by norm_num, le_rfl⟩,
   C10_theorem 550 0.0106 2026 0 0.01 0 (by norm_num) le_rfl (by norm_num) le_rfl⟩

theorem errIsDiv_iff {α : Type} (r : Except PyError α) :
    errIsDiv r = true ↔ r = .error .divByZero := by
  cases r with
  | ok v => simp [errIsDiv]
  | error e => cases e <;> simp [errIsDiv]

/-- Claim C7 (amended): if some horizon year's recorded total area or
newly-active area is exactly zero, the instrumented run aborts with a
division-by-zero failure (Python ZeroDivisionError), surfacing the error and
returning no partial series; a strictly negative area, however, is not
detected (see the counterexample), so only the zero case fails. -/
theorem C7_theorem : ∀ (rnp rdp rrp share_op share_emb hl A : ℚ) (n : ℕ),
    (∃ (i : ℕ) (h : i < (Static.horizonRows rnp rdp rrp share_op share_emb hl A n).length),
      ((Static.horizonRows rnp rdp rrp share_op share_emb hl A n).get ⟨i, h⟩).Ae = 0 ∨
      ((Static.horizonRows rnp rdp rrp share_op share_emb hl A n).get ⟨i, h⟩).Anew = 0) →
    errIsDiv (horizonRowsE rnp rdp rrp share_op share_emb hl A n) = true := by
  intro rnp rdp rrp share_op share_emb hl A n
  induction n generalizing A with
  | zero =>
    rintro ⟨i, h, -⟩
    simp [Static.horizonRows] at h
  | succ n ih =>
    rintro ⟨i, h, hz⟩
    by_cases hhl : hl = 0
    · simp [horizonRowsE, hhl, errIsDiv]
    · by_cases hA2 : A + rnp * A - rdp * A = 0
      · simp [horizonRowsE, hhl, hA2, errIsDiv]
      · by_cases hAn : rnp * A + rrp * A = 0
        · simp [horizonRowsE, hhl, hA2, hAn, errIsDiv]
        · cases i with
          | zero =>
            have hz0 : (A + rnp * A - rdp * A = 0) ∨ (rnp * A + rrp * A = 0) := hz
            rcases hz0 with h0 | h0
            · exact absurd h0 hA2
            · exact absurd h0 hAn
          | succ i =>
            have hb : i < (Static.horizonRows rnp rdp rrp share_op share_emb hl
                (A + rnp * A - rdp * A) n).length := by
              have hlen := Static.horizonRows_length rnp rdp rrp share_op share_emb hl
              rw [hlen] at h ⊢
              omega
            have htail := ih (A + rnp * A - rdp * A) ⟨i, hb, hz⟩
            rw [errIsDiv_iff] at htail
            simp [horizonRowsE, hhl, hA2, hAn, htail, errIsDiv]

/-- Concrete instance of C7_theorem: area 1, demolition rate 1, so the first
horizon year's recorded total area is zero and the run fails with a division
by zero. -/
theorem C7_witness :
    (∃ (i : ℕ) (h : i < (Static.horizonRows 0 1 0 1 1 1 1 1).length),
      ((Static.horizonRows 0 1 0 1 1 1 1 1).get ⟨i, h⟩).Ae = 0 ∨
      ((Static.horizonRows 0 1 0 1 1 1 1 1).get ⟨i, h⟩).Anew = 0) ∧
    errIsDiv (horizonRowsE 0 1 0 1 1 1 1 1) = true :=
  ⟨⟨0, by norm_num [Static.horizonRows], by norm_num [Static.horizonRows]⟩,
   C7_theorem 0 1 0 1 1 1 1 1
     ⟨0, by norm_num [Static.horizonRows], by norm_num [Static.horizonRows]⟩⟩

/-- Counterexample to claim C7 as stated: with demolition rate 2 (and
renovation rate 0.01 so the newly-active area stays positive), the first
horizon year's total area is strictly negative, yet the calculator does not
fail: it returns a complete intensity series computed against the negative
area.  Zero areas fail, negative areas pass through silently. -/
theorem C7_counterexample :
    isOkRun (calculate_emissions_year_by_yearE Static.GB Static.Fn 2025 0 0.01 2) = true ∧
    firstAe (calculate_emissions_year_by_yearE Static.GB Static.Fn 2025 0 0.01 2) < 0 := by
  constructor <;>
    norm_num [calculate_emissions_year_by_yearE, horizonRowsE, Static.warmupArea,
      Static.GB, Static.Fn, Static.Fb, Static.Fe, Static.Fo, Static.Ae_initial,
      Static.Ae_residential, Static.Ae_nonresidential, isOkRun, firstAe]

theorem horizonRowsE_div_or_ok (rnp rdp rrp share_op share_emb hl : ℚ) :
    ∀ (n : ℕ) (A : ℚ),
      horizonRowsE rnp rdp rrp share_op share_emb hl A n = .error .divByZero ∨
      ∃ L, horizonRowsE rnp rdp rrp share_op share_emb hl A n = .ok L := by
  intro n
  induction n with
  | zero => intro A; exact Or.inr ⟨[], rfl⟩
  | succ n ih =>
    intro A
    by_cases hhl : hl = 0
    · exact Or.inl (by simp [horizonRowsE, hhl])
    · by_cases hA2 : A + rnp * A - rdp * A = 0
      · exact Or.inl (by simp [horizonRowsE, hhl, hA2])
      · by_cases hAn : rnp * A + rrp * A = 0
        · exact Or.inl (by simp [horizonRowsE, hhl, hA2, hAn])
        · rcases ih (A + rnp * A - rdp * A) with htail | ⟨L, htail⟩
          · exact Or.inl (by simp [horizonRowsE, hhl, hA2, hAn, htail])
          · exact Or.inr ⟨⟨A + rnp * A - rdp * A, rnp * A + rrp * A,
              share_op / hl / (A + rnp * A - rdp * A),
              share_emb / hl / (rnp * A + rrp * A) / 50⟩ :: L,
              by simp [horizonRowsE, hhl, hA2, hAn, htail]⟩

/-- Claim C8 (amended): the scripts perform no input validation at all — no
InvalidParameter condition exists in the code — so for every input,
in-domain or not, the computation proceeds; the only failure the pipeline
can produce is a division by zero (for example a zero horizon length),
never an InvalidParameter failure. -/
theorem C8_theorem (GBr Fnp : ℚ) (yearNeutral : ℕ) (rnp rrp rdp : ℚ) :
    errIsInvalid (calculate_emissionsE GBr Fnp yearNeutral rnp rrp rdp) = false := by
  rcases horizonRowsE_div_or_ok rnp rdp rrp
      ((GBr - 185) / 0.887 * Fnp * PC.Fb * PC.Fo * 1e12)
      ((GBr - 185) / 0.887 * Fnp * PC.Fb * PC.Fe * 1e12)
      ((yearNeutral : ℚ) + 1 - 2025) (yearNeutral - 2024)
      (PC.warmupArea rnp rdp PC.Ae_initial 4) with hrun | ⟨L, hrun⟩ <;>
    · simp only [calculate_emissionsE, hrun]
      by_cases hhl : ((yearNeutral : ℚ) + 1 - 2025) = 0 <;>
        simp [averagesE, errIsInvalid, hhl]

/-- Counterexample to claim C8 as stated: the national share -1 lies outside
[0, 1], yet the computation runs to completion and returns averages — no
InvalidParameter failure occurs before (or after) the simulation. -/
theorem C8_counterexample :
    ¬((0:ℚ) ≤ -1 ∧ (-1:ℚ) ≤ 1) ∧
    isOkRun (calculate_emissionsE 550 (-1) 2026 0 0.01 0) = true := by
  constructor
  · norm_num
  · norm_num [calculate_emissionsE, horizonRowsE, averagesE, PC.warmupArea, PC.Fb,
      PC.Fe, PC.Fo, PC.Ae_initial, PC.Ae_residential, PC.Ae_nonresidential, isOkRun]

/-- Counterexample to claim C4 as stated: at the degenerate input ratio = 1
that the claim itself names (with the embodied module's shape values and
integral), the solve divides by 1 - ratio = 0 and the run aborts with a
plain division-by-zero failure before any verification is reached; no
explicit UnsolvableConstraint condition is ever raised, and no tolerance
comparison is performed. -/
theorem C4_counterexample :
    errIsDiv (Dyn.dynamicModuleE EE.Z_2025 EE.Z_2045 EE.I_Z 1 EE.I_constant 20) = true ∧
    errIsUnsolvable (Dyn.dynamicModuleE EE.Z_2025 EE.Z_2045 EE.I_Z 1 EE.I_constant 20) = false := by
  constructor <;>
    norm_num [Dyn.dynamicModuleE, Dyn.solve_for_a_bE, Dyn.verificationE,
      errIsDiv, errIsUnsolvable]

/-- Claim C4 (amended): after solving, the script recomputes the end/start
ratio and the integral of the curve and prints them, but performs no
tolerance check and never fails with an UnsolvableConstraint condition; the
only failures are division-by-zero aborts (singular 1 - ratio or singular
denominator in the solve, or a vanishing dynamic(T_min) in the ratio
recomputation), and whenever the run does return, the recomputed ratio
equals ratio and the recomputed integral equals I_constant exactly. -/
theorem Dyn.verificationE_not_unsolvable (Z0 Z1 IZ Tlen : ℚ)
    (r : Except PyError (ℚ × ℚ)) (hr : r ≠ .error .unsolvableConstraint) :
    errIsUnsolvable (Dyn.verificationE Z0 Z1 IZ Tlen r) = false := by
  cases r with
  | error e => cases e <;> simp [Dyn.verificationE, errIsUnsolvable] at hr ⊢
  | ok p =>
    obtain ⟨a, b⟩ := p
    by_cases h3 : a + b * Z0 = 0
    · simp [Dyn.verificationE, h3, errIsUnsolvable]
    · simp [Dyn.verificationE, h3, errIsUnsolvable]

theorem Dyn.solve_not_unsolvable (Z0 Z1 IZ ratio Iconst Tlen : ℚ) :
    Dyn.solve_for_a_bE Z0 Z1 IZ ratio Iconst Tlen ≠ .error .unsolvableConstraint := by
  simp only [Dyn.solve_for_a_bE]
  split_ifs <;> simp

theorem C4_theorem (Z0 Z1 IZ ratio Iconst Tlen : ℚ) :
    errIsUnsolvable (Dyn.dynamicModuleE Z0 Z1 IZ ratio Iconst Tlen) = false ∧
    (∀ a b rc Idyn,
      Dyn.dynamicModuleE Z0 Z1 IZ ratio Iconst Tlen = .ok (a, b, rc, Idyn) →
      rc = ratio ∧ Idyn = Iconst) := by
  constructor
  · exact Dyn.verificationE_not_unsolvable Z0 Z1 IZ Tlen _
      (Dyn.solve_not_unsolvable Z0 Z1 IZ ratio Iconst Tlen)
  · intro a b rc Idyn hok
    rw [Dyn.dynamicModuleE] at hok
    cases hs : Dyn.solve_for_a_bE Z0 Z1 IZ ratio Iconst Tlen with
    | error e => rw [hs] at hok; simp [Dyn.verificationE] at hok
    | ok p =>
      obtain ⟨asol, bsol⟩ := p
      rw [hs] at hok
      by_cases h3 : asol + bsol * Z0 = 0
      · simp [Dyn.verificationE, h3] at hok
      · simp only [Dyn.verificationE, if_neg h3, Except.ok.injEq, Prod.mk.injEq] at hok
        obtain ⟨ha, hb, hrc, hId⟩ := hok
        simp only [Dyn.solve_for_a_bE] at hs
        split_ifs at hs with h1 h2
        simp only [Except.ok.injEq, Prod.mk.injEq] at hs
        obtain ⟨hasol, hbsol⟩ := hs
        subst hasol hbsol ha hb hrc hId
        constructor
        · have hc : -(Z1 - ratio * Z0) / (1 - ratio) * (1 - ratio) =
              -(Z1 - ratio * Z0) := div_mul_cancel₀ _ h1
          have hkey : Iconst / (-(Z1 - ratio * Z0) / (1 - ratio) * Tlen + IZ) *
                -(Z1 - ratio * Z0) / (1 - ratio) +
                Iconst / (-(Z1 - ratio * Z0) / (1 - ratio) * Tlen + IZ) * Z1 =
              ratio * (Iconst / (-(Z1 - ratio * Z0) / (1 - ratio) * Tlen + IZ) *
                -(Z1 - ratio * Z0) / (1 - ratio) +
                Iconst / (-(Z1 - ratio * Z0) / (1 - ratio) * Tlen + IZ) * Z0) := by
            linear_combination Iconst / (-(Z1 - ratio * Z0) / (1 - ratio) * Tlen + IZ) * hc
          rw [hkey, mul_div_assoc, div_self h3, mul_one]
        · have hsplit : Iconst / (-(Z1 - ratio * Z0) / (1 - ratio) * Tlen + IZ) *
                -(Z1 - ratio * Z0) / (1 - ratio) * Tlen +
                Iconst / (-(Z1 - ratio * Z0) / (1 - ratio) * Tlen + IZ) * IZ =
              Iconst / (-(Z1 - ratio * Z0) / (1 - ratio) * Tlen + IZ) *
                (-(Z1 - ratio * Z0) / (1 - ratio) * Tlen + IZ) := by
            ring
          rw [hsplit, div_mul_cancel₀ _ h2]

/-- Concrete instance of C4_theorem: a successful run (Z0 = 2, Z1 = 1,
I_Z = 30, ratio = 1/2, I_constant = 20, T_max - T_min = 20) whose recomputed
verification quantities equal ratio and I_constant exactly. -/
theorem C4_witness :
    Dyn.dynamicModuleE 2 1 30 (1/2) 20 20 = .ok (0, 2/3, 1/2, 20) ∧
    ((1/2 : ℚ) = 1/2 ∧ (20 : ℚ) = 20) :=
  ⟨by norm_num [Dyn.dynamicModuleE, Dyn.solve_for_a_bE, Dyn.verificationE],
   (C4_theorem 2 1 30 (1/2) 20 20).2 0 (2/3) (1/2) 20
     (by norm_num [Dyn.dynamicModuleE, Dyn.solve_for_a_bE, Dyn.verificationE])⟩

/-- Claim C1 (amended): for every interval-integrable shape function Z,
ratio in (0, 1) and target integral I_target such that the solver's two
denominators are nonzero, and additionally I_target is nonzero and Z does
not take the same value at the two horizon ends (in either of those
degenerate cases the solved curve vanishes at both ends and the end/start
quotient is undefined), the pair (a, b) returned by solve_for_a_b makes
dynamic(t) = a + b * Z(t) satisfy dynamic(T_max) / dynamic(T_min) = ratio
and integral of dynamic over the horizon = I_target, hence both constraints
hold within 1e-3 relative tolerance. -/
theorem C1_theorem (Z : ℝ → ℝ) (ratio Itar Tmin Tmax a b : ℝ)
    (hint : IntervalIntegrable Z MeasureTheory.volume Tmin Tmax)
    (hr0 : 0 < ratio) (hr1 : ratio < 1)
    (hden : -(Z Tmax - ratio * Z Tmin) / (1 - ratio) * (Tmax - Tmin) +
      (∫ t in Tmin..Tmax, Z t) ≠ 0)
    (hI : Itar ≠ 0) (hZ : Z Tmin ≠ Z Tmax)
    (hab : (a, b) = DynR.solve_for_a_b (Z Tmin) (Z Tmax)
      (∫ t in Tmin..Tmax, Z t) ratio Itar Tmin Tmax) :
    |DynR.dynamic a b Z Tmax / DynR.dynamic a b Z Tmin - ratio| ≤ 1e-3 * |ratio| ∧
    |(∫ t in Tmin..Tmax, DynR.dynamic a b Z t) - Itar| ≤ 1e-3 * |Itar| := by
  have h1r : (1:ℝ) - ratio ≠ 0 := by
    have : (0:ℝ) < 1 - ratio := by linarith
    exact ne_of_gt this
  simp only [DynR.solve_for_a_b, Prod.mk.injEq] at hab
  obtain ⟨ha, hb⟩ := hab
  rw [← hb] at ha
  have hbne : b ≠ 0 := by
    rw [hb]
    exact div_ne_zero hI hden
  have hdmin : DynR.dynamic a b Z Tmin = b * ((Z Tmin - Z Tmax) / (1 - ratio)) := by
    simp only [DynR.dynamic]
    rw [ha]
    field_simp
    ring
  have hdminne : DynR.dynamic a b Z Tmin ≠ 0 := by
    rw [hdmin]
    exact mul_ne_zero hbne (div_ne_zero (sub_ne_zero.mpr hZ) h1r)
  constructor
  · have hkey : DynR.dynamic a b Z Tmax = ratio * DynR.dynamic a b Z Tmin := by
      simp only [DynR.dynamic]
      rw [ha]
      field_simp
      ring
    rw [hkey, mul_div_assoc, div_self hdminne, mul_one, sub_self, abs_zero]
    positivity
  · have hintegral : (∫ t in Tmin..Tmax, DynR.dynamic a b Z t) =
        a * (Tmax - Tmin) + b * (∫ t in Tmin..Tmax, Z t) := by
      simp only [DynR.dynamic]
      rw [intervalIntegral.integral_add intervalIntegrable_const (hint.const_mul b),
        intervalIntegral.integral_const, intervalIntegral.integral_const_mul,
        smul_eq_mul]
      ring
    have hsum : a * (Tmax - Tmin) + b * (∫ t in Tmin..Tmax, Z t) =
        b * (-(Z Tmax - ratio * Z Tmin) / (1 - ratio) * (Tmax - Tmin) +
          (∫ t in Tmin..Tmax, Z t)) := by
      rw [ha]
      ring
    rw [hintegral, hsum, hb, div_mul_cancel₀ _ hden, sub_self, abs_zero]
    positivity

/-- Concrete instance of C1_theorem: Z(t) = t on the horizon of 0 to 1 with
ratio 1/2 and target integral 1; the solver returns (a, b) = (4/3, -2/3). -/
theorem C1_witness :
    IntervalIntegrable (fun t : ℝ => t) MeasureTheory.volume 0 1 ∧
    (0:ℝ) < 1/2 ∧ (1/2:ℝ) < 1 ∧
    (-((1:ℝ) - 1/2 * 0) / (1 - 1/2) * (1 - 0) + (∫ t in (0:ℝ)..1, t) ≠ 0) ∧
    (1:ℝ) ≠ 0 ∧ (0:ℝ) ≠ (1:ℝ) ∧
    ((4/3 : ℝ), (-2/3 : ℝ)) = DynR.solve_for_a_b 0 1 (∫ t in (0:ℝ)..1, t) (1/2) 1 0 1 ∧
    (|DynR.dynamic (4/3) (-2/3) (fun t : ℝ => t) 1 /
        DynR.dynamic (4/3) (-2/3) (fun t : ℝ => t) 0 - 1/2| ≤ 1e-3 * |(1/2 : ℝ)| ∧
     |(∫ t in (0:ℝ)..1, DynR.dynamic (4/3) (-2/3) (fun t : ℝ => t) t) - 1| ≤
       1e-3 * |(1:ℝ)|) := by
  have hint : IntervalIntegrable (fun t : ℝ => t) MeasureTheory.volume 0 1 :=
    continuous_id.intervalIntegrable 0 1
  have hIv : (∫ t in (0:ℝ)..1, t) = 1/2 := by
    rw [integral_id]
    norm_num
  have hden : -((1:ℝ) - 1/2 * 0) / (1 - 1/2) * (1 - 0) + (∫ t in (0:ℝ)..1, t) ≠ 0 := by
    rw [hIv]
    norm_num
  have hab : ((4/3 : ℝ), (-2/3 : ℝ)) =
      DynR.solve_for_a_b 0 1 (∫ t in (0:ℝ)..1, t) (1/2) 1 0 1 := by
    rw [hIv]
    simp only [DynR.solve_for_a_b, Prod.mk.injEq]
    norm_num
  exact ⟨hint, by norm_num, by norm_num, hden, by norm_num, by norm_num, hab,
    C1_theorem (fun t : ℝ => t) (1/2) 1 0 1 (4/3) (-2/3) hint (by norm_num)
      (by norm_num) hden (by norm_num) (by norm_num) hab⟩

/-- Counterexample to claim C1 as stated: the shape function Z(t) = t(1 - t)
takes the same value 0 at both horizon ends and the target integral 0 makes
the solved coefficients (a, b) = (0, 0), so the curve vanishes identically:
every hypothesis the claim states holds (ratio 1/2 lies in (0,1) and both
solver denominators are nonzero, the second one being the integral 1/6),
yet dynamic(T_max)/dynamic(T_min) is 0/0 and misses ratio by far more than
the 1e-3 relative tolerance. -/
theorem C1_counterexample :
    IntervalIntegrable (fun t : ℝ => t * (1 - t)) MeasureTheory.volume 0 1 ∧
    (0:ℝ) < 1/2 ∧ (1/2:ℝ) < 1 ∧
    (-(((1:ℝ) * (1 - 1)) - 1/2 * (0 * (1 - 0))) / (1 - 1/2) * (1 - 0) +
      (∫ t in (0:ℝ)..1, t * (1 - t)) ≠ 0) ∧
    ((0:ℝ), (0:ℝ)) = DynR.solve_for_a_b (0 * (1 - 0)) (1 * (1 - 1))
      (∫ t in (0:ℝ)..1, t * (1 - t)) (1/2) 0 0 1 ∧
    ¬(|DynR.dynamic 0 0 (fun t : ℝ => t * (1 - t)) 1 /
        DynR.dynamic 0 0 (fun t : ℝ => t * (1 - t)) 0 - 1/2| ≤ 1e-3 * |(1/2 : ℝ)|) := by
  have hcont : Continuous (fun t : ℝ => t * (1 - t)) :=
    continuous_id.mul (continuous_const.sub continuous_id)
  have hIv : (∫ t in (0:ℝ)..1, t * (1 - t)) = 1/6 := by
    have hfun : (fun t : ℝ => t * (1 - t)) = fun t : ℝ => t - t ^ 2 := by
      funext t
      ring
    rw [hfun, intervalIntegral.integral_sub (continuous_id'.intervalIntegrable 0 1)
      ((continuous_pow 2).intervalIntegrable 0 1), integral_id, integral_pow]
    norm_num
  refine ⟨hcont.intervalIntegrable 0 1, by norm_num, by norm_num, ?_, ?_, ?_⟩
  · rw [hIv]
    norm_num
  · rw [hIv]
    simp only [DynR.solve_for_a_b, Prod.mk.injEq]
    norm_num
  · simp only [DynR.dynamic]
    norm_num
